import Mathlib

/-!
Shallow embedding of `core/services/functions/connector_handler.go`
(the Functions gateway connector handler) and of the collaborators it
calls, together with proofs of the specified behaviour.

External collaborators (allowlist, s4 storage, json codec, gateway
connector) are modelled as result oracles collected in an `Env`
structure; the handler itself is translated as a pure function that
returns the ordered list of observable effects (log lines, storage
calls, marshalling, transport submissions) it performs.
-/

/-- Byte strings are modelled as lists of naturals. -/
abbrev Bytes := List Nat

/-- An Ethereum account address: 20 bytes (the result of
`ethCommon.HexToAddress`). -/
abbrev EthAddress := List Nat

/-- Numeric value of one hexadecimal digit character, `none` for a
non-hex character (models `encoding/hex.fromHexChar`). -/
def hexCharVal (c : Char) : Option Nat :=
  if '0' ≤ c ∧ c ≤ '9' then some (c.toNat - '0'.toNat)
  else if 'a' ≤ c ∧ c ≤ 'f' then some (c.toNat - 'a'.toNat + 10)
  else if 'A' ≤ c ∧ c ≤ 'F' then some (c.toNat - 'A'.toNat + 10)
  else none

/-- Decode consecutive pairs of hex digits into bytes, stopping at the
first invalid pair; models `encoding/hex.Decode` as used by
`common.Hex2Bytes`, which discards the error and keeps the bytes
decoded so far. -/
def decodeHexPairs : List Char → List Nat
  | a :: b :: rest =>
    match hexCharVal a, hexCharVal b with
    | some x, some y => (16 * x + y) :: decodeHexPairs rest
    | _, _ => []
  | _ => []

/-- Models `common.has0xPrefix`: the string starts with `0x` or `0X`. -/
def has0x : List Char → Bool
  | '0' :: c :: _ => c = 'x' ∨ c = 'X'
  | _ => false

/-- Models `common.FromHex`: strip an optional `0x` marker, left-pad an
odd-length string with `0`, then decode hex pairs. -/
def FromHex (s : List Char) : List Nat :=
  let s1 := if has0x s then s.drop 2 else s
  let s2 := if s1.length % 2 = 1 then '0' :: s1 else s1
  decodeHexPairs s2

/-- Models `common.BytesToAddress` / `Address.SetBytes`: keep the last
20 bytes and left-pad with zero bytes to exactly 20 bytes. -/
def BytesToAddress (b : List Nat) : EthAddress :=
  let b' := if 20 < b.length then b.drop (b.length - 20) else b
  List.replicate (20 - b'.length) 0 ++ b'

/-- Models `ethCommon.HexToAddress`: a total conversion from any string
to a 20-byte address. -/
def HexToAddress (s : String) : EthAddress :=
  BytesToAddress (FromHex s.data)

/-- The body of a gateway API message (`api.MessageBody`), with the
fields the handler reads and writes. -/
structure MessageBody where
  messageId : String
  donId : String
  method : String
  sender : String
  payload : String
deriving DecidableEq, Repr

/-- A gateway API message (`api.Message`): a body plus an envelope
signature. -/
structure Message where
  body : MessageBody
  signature : Bytes
deriving DecidableEq, Repr

/-- Models `s4.Key`: the storage key (owner address, slot id, version). -/
structure S4Key where
  address : EthAddress
  slotId : Nat
  version : Nat
deriving DecidableEq, Repr

/-- Models `s4.Record`: expiration timestamp plus opaque payload bytes. -/
structure S4Record where
  expiration : Int
  payload : Bytes
deriving DecidableEq, Repr

/-- Modelled from the spec: `s4.SnapshotRow`, the storage backend
enumeration row (the s4 package is not under src/). Per the spec a
stored secret record carries an expiration and payload bytes; the row
also carries its key slot id and version. List responses must expose
only slot id, version and expiration. -/
structure SnapshotRow where
  slotId : Nat
  version : Nat
  expiration : Int
  payload : Bytes
deriving DecidableEq, Repr

/-- One row of a `secrets_list` response (`ListRow` in
`handleSecretsList`): metadata only, no payload field. -/
structure ListRow where
  slotId : Nat
  version : Nat
  expiration : Int
deriving DecidableEq, Repr

/-- The `secrets_list` response (`ListResponse` in `handleSecretsList`).
An empty `errorMessage` models the omitted `error_message` JSON field. -/
structure ListResponse where
  success : Bool
  errorMessage : String
  rows : List ListRow
deriving DecidableEq, Repr

/-- The decoded `secrets_set` request payload (`SetRequest` in
`handleSecretsSet`). -/
structure SetRequest where
  slotId : Nat
  version : Nat
  expiration : Int
  payload : Bytes
  signature : Bytes
deriving DecidableEq, Repr

/-- The `secrets_set` response (`SetResponse` in `handleSecretsSet`). -/
structure SetResponse where
  success : Bool
  errorMessage : String
deriving DecidableEq, Repr

/-- The response value handed to `sendResponse` (its `payload any`
argument): one of the two response shapes of this handler. -/
inductive ResponsePayload
  | list (r : ListResponse)
  | set (r : SetResponse)
deriving DecidableEq, Repr

/-- The cancellation state of the request `context.Context`. -/
structure Ctx where
  cancelled : Bool
deriving DecidableEq, Repr

/-- One observable effect of a handler run, in order: log lines,
storage calls, payload marshalling and transport submissions. -/
inductive Effect
  | logDebug (msg : String)
  | logError (msg : String)
  | storageList (addr : EthAddress)
  | storagePut (key : S4Key) (record : S4Record) (signature : Bytes)
  | marshal (p : ResponsePayload)
  | sendToGateway (gatewayId : String) (msg : Message)
deriving DecidableEq, Repr

/-- Configuration held by the handler (`functionsConnectorHandler`
fields that are plain data; the collaborators live in `Env`). -/
structure functionsConnectorHandler where
  nodeAddress : String
  signerKey : Nat
deriving DecidableEq, Repr

/-- Results of the collaborator calls the handler makes: the allowlist
decision, the s4 storage results, the json codec results, whether
envelope signing succeeds, and the gateway connector result. -/
structure Env where
  allow : EthAddress → Bool
  storageList : Ctx → EthAddress → Except String (List SnapshotRow)
  storagePut : Ctx → S4Key → S4Record → Bytes → Except String Unit
  unmarshalSetRequest : String → Except String SetRequest
  marshalResponse : ResponsePayload → Except String String
  signOk : Bool
  sendToGateway : Ctx → String → Message → Except String Unit

/-- Bytes of a string, for inclusion in signed data. -/
def encodeString (s : String) : Bytes :=
  s.data.map Char.toNat

/-- Modelled from the spec: the envelope signature covers the
non-signature fields of the message body. -/
def encodeBody (b : MessageBody) : Bytes :=
  encodeString b.messageId ++ [0] ++ encodeString b.donId ++ [0] ++
    encodeString b.method ++ [0] ++ encodeString b.sender ++ [0] ++
    encodeString b.payload

/-- Modelled from the spec: `common.SignData` (not under src/) — the
signature over the envelope non-signature fields computed with the
node private key. -/
def SignData (key : Nat) (b : MessageBody) : Bytes :=
  key :: encodeBody b

/-- Modelled from the spec: the public key corresponding to a private
key. -/
def publicKeyOf (key : Nat) : Nat := key

/-- Modelled from the spec: signature verification of an envelope
against a public key; it succeeds exactly on the signature produced by
the matching private key over the same body. -/
def verifySignature (pub : Nat) (b : MessageBody) (sig : Bytes) : Bool :=
  sig == SignData pub b

/-- Modelled from the spec: `api.Message.Sign` (not under src/) — signs
the envelope with the private key; signing may fail, which the
environment controls through `signOk`. -/
def messageSign (env : Env) (key : Nat) (b : MessageBody) : Except String Bytes :=
  if env.signOk then Except.ok (SignData key b) else Except.error "signing failed"

def methodSecretsSet : String := "secrets_set"

def methodSecretsList : String := "secrets_list"

/-- The outbound message body `sendResponse` constructs: `MessageId`,
`DonId` and `Method` copied from the request, `Sender` set to the
node own address, `Payload` set to the marshalled response. -/
def outboundBody (h : functionsConnectorHandler) (requestBody : MessageBody)
    (payloadJson : String) : MessageBody :=
  { messageId := requestBody.messageId
    donId := requestBody.donId
    method := requestBody.method
    sender := h.nodeAddress
    payload := payloadJson }

/-- Translation of `sendResponse`: marshal the response payload, build
the outbound body copying `MessageId`, `DonId` and `Method` from the
request and setting `Sender` to the node address, sign it, and submit
it to the gateway. Returns the effect trace and the error returned to
the caller, if any. -/
def sendResponse (h : functionsConnectorHandler) (env : Env) (ctx : Ctx)
    (gatewayId : String) (requestBody : MessageBody) (payload : ResponsePayload) :
    List Effect × Option String :=
  match env.marshalResponse payload with
  | Except.error e => ([Effect.marshal payload], some e)
  | Except.ok payloadJson =>
    match messageSign env h.signerKey (outboundBody h requestBody payloadJson) with
    | Except.error e => ([Effect.marshal payload], some e)
    | Except.ok sig =>
      match env.sendToGateway ctx gatewayId
          { body := outboundBody h requestBody payloadJson, signature := sig } with
      | Except.ok _ =>
        ([Effect.marshal payload,
          Effect.sendToGateway gatewayId
            { body := outboundBody h requestBody payloadJson, signature := sig },
          Effect.logDebug "sent to gateway"], none)
      | Except.error e =>
        ([Effect.marshal payload,
          Effect.sendToGateway gatewayId
            { body := outboundBody h requestBody payloadJson, signature := sig }], some e)

/-- The call pattern shared by both secrets handlers: call
`sendResponse` and log on error (`failed to send response to gateway`). -/
def sendAndLog (h : functionsConnectorHandler) (env : Env) (ctx : Ctx)
    (gatewayId : String) (requestBody : MessageBody) (payload : ResponsePayload) :
    List Effect :=
  match sendResponse h env ctx gatewayId requestBody payload with
  | (t, none) => t
  | (t, some _) => t ++ [Effect.logError "failed to send response to gateway"]

/-- The projection from a storage snapshot row to a `secrets_list`
response row: slot id, version and expiration only. -/
def rowProjection (row : SnapshotRow) : ListRow :=
  { slotId := row.slotId, version := row.version, expiration := row.expiration }

/-- Translation of `handleSecretsList`: call `storage.List` for the
sender address, project the snapshot rows to metadata-only list rows
on success or wrap the error on failure, and send the response. -/
def handleSecretsList (h : functionsConnectorHandler) (env : Env) (ctx : Ctx)
    (gatewayId : String) (body : MessageBody) (fromAddr : EthAddress) :
    List Effect :=
  match env.storageList ctx fromAddr with
  | Except.ok snapshot =>
    Effect.storageList fromAddr ::
      sendAndLog h env ctx gatewayId body
        (ResponsePayload.list
          { success := true, errorMessage := "", rows := snapshot.map rowProjection })
  | Except.error e =>
    Effect.storageList fromAddr ::
      sendAndLog h env ctx gatewayId body
        (ResponsePayload.list
          { success := false, errorMessage := "Failed to list secrets: " ++ e, rows := [] })

/-- The storage key `handleSecretsSet` builds: the sender address as
owner, plus slot id and version taken from the decoded request. -/
def setKey (fromAddr : EthAddress) (request : SetRequest) : S4Key :=
  { address := fromAddr, slotId := request.slotId, version := request.version }

/-- The storage record `handleSecretsSet` builds: expiration and
payload taken from the decoded request. -/
def setRecord (request : SetRequest) : S4Record :=
  { expiration := request.expiration, payload := request.payload }

/-- Translation of `handleSecretsSet`: decode the request payload; on
success build the storage key and record, call `storage.Put` with the
caller-supplied signature, and answer with success or the wrapped
storage error; on decode failure answer with the wrapped decode error
without touching storage. -/
def handleSecretsSet (h : functionsConnectorHandler) (env : Env) (ctx : Ctx)
    (gatewayId : String) (body : MessageBody) (fromAddr : EthAddress) :
    List Effect :=
  match env.unmarshalSetRequest body.payload with
  | Except.ok request =>
    match env.storagePut ctx (setKey fromAddr request) (setRecord request)
        request.signature with
    | Except.ok _ =>
      Effect.storagePut (setKey fromAddr request) (setRecord request) request.signature ::
        sendAndLog h env ctx gatewayId body
          (ResponsePayload.set { success := true, errorMessage := "" })
    | Except.error e =>
      Effect.storagePut (setKey fromAddr request) (setRecord request) request.signature ::
        sendAndLog h env ctx gatewayId body
          (ResponsePayload.set
            { success := false, errorMessage := "Failed to set secret: " ++ e })
  | Except.error e =>
    sendAndLog h env ctx gatewayId body
      (ResponsePayload.set
        { success := false, errorMessage := "Bad request to set secret: " ++ e })

/-- Translation of `HandleGatewayMessage`: derive the sender address,
consult the allowlist (rejections are logged and dropped), then
dispatch on the method, with unknown methods logged and dropped. -/
def HandleGatewayMessage (h : functionsConnectorHandler) (env : Env) (ctx : Ctx)
    (gatewayId : String) (msg : Message) : List Effect :=
  if env.allow (HexToAddress msg.body.sender) then
    Effect.logDebug "handling gateway request" ::
      (if msg.body.method = methodSecretsList then
        handleSecretsList h env ctx gatewayId msg.body (HexToAddress msg.body.sender)
      else if msg.body.method = methodSecretsSet then
        handleSecretsSet h env ctx gatewayId msg.body (HexToAddress msg.body.sender)
      else
        [Effect.logError "unsupported method"])
  else
    [Effect.logError "allowlist prevented the request from this address"]

example : HexToAddress "0x1234" =
    [0, 0, 0, 0, 0, 0, 0, 0, 0, 0, 0, 0, 0, 0, 0, 0, 0, 0, 18, 52] := by decide

/-- Whether an effect is a submission to the gateway transport. -/
def isSend : Effect → Bool
  | Effect.sendToGateway _ _ => true
  | _ => false

/-- Whether an effect is a storage backend access (list or put). -/
def isStorageEffect : Effect → Bool
  | Effect.storageList _ => true
  | Effect.storagePut _ _ _ => true
  | _ => false

/-- Whether an effect is a storage backend write. -/
def isStoragePut : Effect → Bool
  | Effect.storagePut _ _ _ => true
  | _ => false

/-- Whether an effect is a marshalling of a response payload. -/
def isMarshal : Effect → Bool
  | Effect.marshal _ => true
  | _ => false

/-- The outbound message `sendResponse` constructs once marshalling
produced `payloadJson` and signing succeeded. -/
def mkOutbound (h : functionsConnectorHandler) (requestBody : MessageBody)
    (payloadJson : String) : Message :=
  { body := outboundBody h requestBody payloadJson
    signature := SignData h.signerKey (outboundBody h requestBody payloadJson) }

theorem sendResponse_no_storage (h : functionsConnectorHandler) (env : Env)
    (ctx : Ctx) (gatewayId : String) (requestBody : MessageBody)
    (payload : ResponsePayload) :
    ((sendResponse h env ctx gatewayId requestBody payload).1.filter isStorageEffect) = [] := by
  unfold sendResponse
  split
  · simp [isStorageEffect]
  · split
    · simp [isStorageEffect]
    · split <;> simp [isStorageEffect]

theorem sendAndLog_no_storage (h : functionsConnectorHandler) (env : Env)
    (ctx : Ctx) (gatewayId : String) (requestBody : MessageBody)
    (payload : ResponsePayload) :
    ((sendAndLog h env ctx gatewayId requestBody payload).filter isStorageEffect) = [] := by
  have hbase := sendResponse_no_storage h env ctx gatewayId requestBody payload
  unfold sendAndLog
  rcases hs : sendResponse h env ctx gatewayId requestBody payload with ⟨t, e⟩
  rw [hs] at hbase
  rcases e with _ | e
  · simpa using hbase
  · simp [List.filter_append, hbase, isStorageEffect]

theorem messageSign_ok (env : Env) (k : Nat) (b : MessageBody) (s : Bytes)
    (hs : messageSign env k b = Except.ok s) : s = SignData k b := by
  unfold messageSign at hs
  split at hs
  · exact (Except.ok.inj hs).symm
  · simp at hs

theorem sendResponse_cases (h : functionsConnectorHandler) (env : Env)
    (ctx : Ctx) (gatewayId : String) (requestBody : MessageBody)
    (payload : ResponsePayload) :
    (∃ e, env.marshalResponse payload = Except.error e ∧
      sendResponse h env ctx gatewayId requestBody payload =
        ([Effect.marshal payload], some e)) ∨
    (∃ pj, env.marshalResponse payload = Except.ok pj ∧ env.signOk = false ∧
      sendResponse h env ctx gatewayId requestBody payload =
        ([Effect.marshal payload], some "signing failed")) ∨
    (∃ pj u, env.marshalResponse payload = Except.ok pj ∧ env.signOk = true ∧
      env.sendToGateway ctx gatewayId (mkOutbound h requestBody pj) = Except.ok u ∧
      sendResponse h env ctx gatewayId requestBody payload =
        ([Effect.marshal payload,
          Effect.sendToGateway gatewayId (mkOutbound h requestBody pj),
          Effect.logDebug "sent to gateway"], none)) ∨
    (∃ pj e, env.marshalResponse payload = Except.ok pj ∧ env.signOk = true ∧
      env.sendToGateway ctx gatewayId (mkOutbound h requestBody pj) = Except.error e ∧
      sendResponse h env ctx gatewayId requestBody payload =
        ([Effect.marshal payload,
          Effect.sendToGateway gatewayId (mkOutbound h requestBody pj)], some e)) := by
  rcases hM : env.marshalResponse payload with e | pj
  · exact Or.inl ⟨e, rfl, by simp [sendResponse, hM]⟩
  · cases hs : env.signOk
    · exact Or.inr (Or.inl ⟨pj, rfl, rfl,
        by simp [sendResponse, hM, messageSign, hs]⟩)
    · rcases hG : env.sendToGateway ctx gatewayId (mkOutbound h requestBody pj)
        with e | u
      · refine Or.inr (Or.inr (Or.inr ⟨pj, e, rfl, rfl, hG, ?_⟩))
        simp only [mkOutbound] at hG
        simp [sendResponse, hM, messageSign, hs, mkOutbound, hG]
      · refine Or.inr (Or.inr (Or.inl ⟨pj, u, rfl, rfl, hG, ?_⟩))
        simp only [mkOutbound] at hG
        simp [sendResponse, hM, messageSign, hs, mkOutbound, hG]

theorem sendResponse_send_shape (h : functionsConnectorHandler) (env : Env)
    (ctx : Ctx) (gatewayId : String) (requestBody : MessageBody)
    (payload : ResponsePayload) (g2 : String) (m2 : Message)
    (hmem : Effect.sendToGateway g2 m2 ∈ (sendResponse h env ctx gatewayId requestBody payload).1) :
    g2 = gatewayId ∧ m2.body.messageId = requestBody.messageId ∧
    m2.body.donId = requestBody.donId ∧ m2.body.method = requestBody.method ∧
    m2.body.sender = h.nodeAddress ∧
    m2.signature = SignData h.signerKey m2.body := by
  rcases sendResponse_cases h env ctx gatewayId requestBody payload with
    ⟨e, hM, hT⟩ | ⟨pj, hM, hs, hT⟩ | ⟨pj, u, hM, hs, hG, hT⟩ | ⟨pj, e, hM, hs, hG, hT⟩ <;>
    rw [hT] at hmem <;> simp at hmem <;>
    obtain ⟨hga, hmsg⟩ := hmem <;> subst hga <;> subst hmsg <;>
    simp [mkOutbound, outboundBody]

theorem sendAndLog_send_shape (h : functionsConnectorHandler) (env : Env)
    (ctx : Ctx) (gatewayId : String) (requestBody : MessageBody)
    (payload : ResponsePayload) (g2 : String) (m2 : Message)
    (hmem : Effect.sendToGateway g2 m2 ∈ sendAndLog h env ctx gatewayId requestBody payload) :
    g2 = gatewayId ∧ m2.body.messageId = requestBody.messageId ∧
    m2.body.donId = requestBody.donId ∧ m2.body.method = requestBody.method ∧
    m2.body.sender = h.nodeAddress ∧
    m2.signature = SignData h.signerKey m2.body := by
  unfold sendAndLog at hmem
  rcases hsr : sendResponse h env ctx gatewayId requestBody payload with ⟨t, e⟩
  rw [hsr] at hmem
  apply sendResponse_send_shape h env ctx gatewayId requestBody payload g2 m2
  rw [hsr]
  rcases e with _ | e
  · exact hmem
  · simp only [List.mem_append, List.mem_singleton] at hmem
    rcases hmem with hmem | hmem
    · exact hmem
    · simp at hmem

theorem sendAndLog_cases (h : functionsConnectorHandler) (env : Env)
    (ctx : Ctx) (gatewayId : String) (requestBody : MessageBody)
    (payload : ResponsePayload) :
    sendAndLog h env ctx gatewayId requestBody payload =
      [Effect.marshal payload, Effect.logError "failed to send response to gateway"] ∨
    (∃ pj, env.marshalResponse payload = Except.ok pj ∧
      (sendAndLog h env ctx gatewayId requestBody payload =
        [Effect.marshal payload,
         Effect.sendToGateway gatewayId (mkOutbound h requestBody pj),
         Effect.logDebug "sent to gateway"] ∨
       sendAndLog h env ctx gatewayId requestBody payload =
        [Effect.marshal payload,
         Effect.sendToGateway gatewayId (mkOutbound h requestBody pj),
         Effect.logError "failed to send response to gateway"])) := by
  rcases sendResponse_cases h env ctx gatewayId requestBody payload with
    ⟨e, hM, hT⟩ | ⟨pj, hM, hs, hT⟩ | ⟨pj, u, hM, hs, hG, hT⟩ | ⟨pj, e, hM, hs, hG, hT⟩
  · left; unfold sendAndLog; rw [hT]; rfl
  · left; unfold sendAndLog; rw [hT]; rfl
  · right; exact ⟨pj, hM, Or.inl (by unfold sendAndLog; rw [hT])⟩
  · right; exact ⟨pj, hM, Or.inr (by unfold sendAndLog; rw [hT]; rfl)⟩

theorem sendAndLog_no_put (h : functionsConnectorHandler) (env : Env)
    (ctx : Ctx) (gatewayId : String) (requestBody : MessageBody)
    (payload : ResponsePayload) :
    (sendAndLog h env ctx gatewayId requestBody payload).filter isStoragePut = [] := by
  rcases sendAndLog_cases h env ctx gatewayId requestBody payload with
    hT | ⟨pj, hM, hT | hT⟩ <;> rw [hT] <;> rfl

/-- A concrete handler configuration used by the concrete runs below. -/
def h0 : functionsConnectorHandler :=
  { nodeAddress := "0xNodeAddress", signerKey := 42 }

/-- A live (not cancelled) request context. -/
def ctx0 : Ctx := { cancelled := false }

/-- A concrete environment in which every collaborator call succeeds. -/
def envBase : Env :=
  { allow := fun _ => true
    storageList := fun _ _ => Except.ok [⟨1, 2, 100, [5, 6]⟩, ⟨2, 1, 200, [7]⟩]
    storagePut := fun _ _ _ _ => Except.ok ()
    unmarshalSetRequest := fun _ => Except.ok ⟨3, 1, 100, [1, 2], [9, 9]⟩
    marshalResponse := fun _ => Except.ok "marshalled"
    signOk := true
    sendToGateway := fun _ _ _ => Except.ok () }

/-- The environment with the allowlist denying every address. -/
def envDeny : Env := { envBase with allow := fun _ => false }

/-- A concrete inbound secrets_set message. -/
def msgSet : Message :=
  { body :=
      { messageId := "m1", donId := "d1", method := "secrets_set",
        sender := "0x1234", payload := "reqbytes" }
    signature := [3] }

/-- A concrete inbound secrets_list message. -/
def msgList : Message :=
  { body :=
      { messageId := "m2", donId := "d2", method := "secrets_list",
        sender := "0x1234", payload := "" }
    signature := [3] }

/-- A concrete inbound message with an unrecognized method. -/
def msgUnknown : Message :=
  { body :=
      { messageId := "m3", donId := "d3", method := "secrets_steal",
        sender := "0x1234", payload := "" }
    signature := [3] }

/-- C1: for every inbound message whose sender address is not admitted
by the allowlist, `HandleGatewayMessage` produces no outbound message
and touches no storage, regardless of the method or payload: the whole
trace is the single rejection log line. -/
theorem C1_allowlist_rejection_is_silent_drop (h : functionsConnectorHandler)
    (env : Env) (ctx : Ctx) (gatewayId : String) (msg : Message)
    (hA : env.allow (HexToAddress msg.body.sender) = false) :
    HandleGatewayMessage h env ctx gatewayId msg =
      [Effect.logError "allowlist prevented the request from this address"] ∧
    (HandleGatewayMessage h env ctx gatewayId msg).filter isSend = [] ∧
    (HandleGatewayMessage h env ctx gatewayId msg).filter isStorageEffect = [] := by
  have hT : HandleGatewayMessage h env ctx gatewayId msg =
      [Effect.logError "allowlist prevented the request from this address"] := by
    unfold HandleGatewayMessage
    simp [hA]
  exact ⟨hT, by rw [hT]; rfl, by rw [hT]; rfl⟩

/-- Witness for C1: a concrete denied sender is answered by nothing but
the rejection log line. -/
theorem C1_witness :
    envDeny.allow (HexToAddress msgSet.body.sender) = false ∧
    (HandleGatewayMessage h0 envDeny ctx0 "gw" msgSet =
      [Effect.logError "allowlist prevented the request from this address"] ∧
    (HandleGatewayMessage h0 envDeny ctx0 "gw" msgSet).filter isSend = [] ∧
    (HandleGatewayMessage h0 envDeny ctx0 "gw" msgSet).filter isStorageEffect = []) :=
  ⟨rfl, C1_allowlist_rejection_is_silent_drop h0 envDeny ctx0 "gw" msgSet rfl⟩

/-- C6: for every inbound message whose method is neither secrets_list
nor secrets_set, the handler only logs: an admitted sender gets exactly
the debug line plus the unsupported-method error line, a rejected one
the rejection line, and in both cases no outbound message is produced
and no storage operation is performed. -/
theorem C6_unknown_method_is_silent_drop (h : functionsConnectorHandler)
    (env : Env) (ctx : Ctx) (gatewayId : String) (msg : Message)
    (h1 : msg.body.method ≠ methodSecretsList)
    (h2 : msg.body.method ≠ methodSecretsSet) :
    HandleGatewayMessage h env ctx gatewayId msg =
      (if env.allow (HexToAddress msg.body.sender) then
        [Effect.logDebug "handling gateway request",
         Effect.logError "unsupported method"]
      else
        [Effect.logError "allowlist prevented the request from this address"]) ∧
    (HandleGatewayMessage h env ctx gatewayId msg).filter isSend = [] ∧
    (HandleGatewayMessage h env ctx gatewayId msg).filter isStorageEffect = [] := by
  have hT : HandleGatewayMessage h env ctx gatewayId msg =
      (if env.allow (HexToAddress msg.body.sender) then
        [Effect.logDebug "handling gateway request",
         Effect.logError "unsupported method"]
      else
        [Effect.logError "allowlist prevented the request from this address"]) := by
    unfold HandleGatewayMessage
    cases hA : env.allow (HexToAddress msg.body.sender) <;> simp [hA, h1, h2]
  refine ⟨hT, ?_, ?_⟩ <;> rw [hT] <;>
    cases hA : env.allow (HexToAddress msg.body.sender) <;> simp [hA, isSend, isStorageEffect]

/-- Witness for C6: a concrete admitted sender calling a concrete
unknown method gets only the two log lines. -/
theorem C6_witness :
    msgUnknown.body.method ≠ methodSecretsList ∧
    msgUnknown.body.method ≠ methodSecretsSet ∧
    (HandleGatewayMessage h0 envBase ctx0 "gw" msgUnknown =
      (if envBase.allow (HexToAddress msgUnknown.body.sender) then
        [Effect.logDebug "handling gateway request",
         Effect.logError "unsupported method"]
      else
        [Effect.logError "allowlist prevented the request from this address"]) ∧
    (HandleGatewayMessage h0 envBase ctx0 "gw" msgUnknown).filter isSend = [] ∧
    (HandleGatewayMessage h0 envBase ctx0 "gw" msgUnknown).filter isStorageEffect = []) :=
  ⟨by decide, by decide,
   C6_unknown_method_is_silent_drop h0 envBase ctx0 "gw" msgUnknown (by decide) (by decide)⟩

/-- C2: for every well-formed secrets_set request, `handleSecretsSet`
performs exactly one storage write, with key built from the sender
address and the decoded slot id and version, record built from the
decoded expiration and payload, and the caller-supplied signature
passed through byte-for-byte; when the write succeeds, the response
sent is exactly success true with an empty error message. -/
theorem C2_secrets_set_writes_once_and_answers_success
    (h : functionsConnectorHandler) (env : Env) (ctx : Ctx)
    (gatewayId : String) (msg : Message) (req : SetRequest)
    (hA : env.allow (HexToAddress msg.body.sender) = true)
    (hM : msg.body.method = methodSecretsSet)
    (hU : env.unmarshalSetRequest msg.body.payload = Except.ok req)
    (hP : env.storagePut ctx (setKey (HexToAddress msg.body.sender) req)
      (setRecord req) req.signature = Except.ok ()) :
    HandleGatewayMessage h env ctx gatewayId msg =
      Effect.logDebug "handling gateway request" ::
      Effect.storagePut (setKey (HexToAddress msg.body.sender) req)
        (setRecord req) req.signature ::
      sendAndLog h env ctx gatewayId msg.body
        (ResponsePayload.set { success := true, errorMessage := "" }) ∧
    (HandleGatewayMessage h env ctx gatewayId msg).filter isStoragePut =
      [Effect.storagePut (setKey (HexToAddress msg.body.sender) req)
        (setRecord req) req.signature] ∧
    setKey (HexToAddress msg.body.sender) req =
      { address := HexToAddress msg.body.sender,
        slotId := req.slotId, version := req.version } ∧
    setRecord req = { expiration := req.expiration, payload := req.payload } := by
  have hne : methodSecretsSet ≠ methodSecretsList := by decide
  have hT : HandleGatewayMessage h env ctx gatewayId msg =
      Effect.logDebug "handling gateway request" ::
      Effect.storagePut (setKey (HexToAddress msg.body.sender) req)
        (setRecord req) req.signature ::
      sendAndLog h env ctx gatewayId msg.body
        (ResponsePayload.set { success := true, errorMessage := "" }) := by
    unfold HandleGatewayMessage handleSecretsSet
    rw [hM]
    simp [hA, hne, hU, hP]
  refine ⟨hT, ?_, rfl, rfl⟩
  rw [hT]
  have hnp := sendAndLog_no_put h env ctx gatewayId msg.body
    (ResponsePayload.set { success := true, errorMessage := "" })
  simp [List.filter, isStoragePut, hnp]

/-- Witness for C2: a concrete well-formed secrets_set run. -/
theorem C2_witness :
    envBase.allow (HexToAddress msgSet.body.sender) = true ∧
    msgSet.body.method = methodSecretsSet ∧
    envBase.unmarshalSetRequest msgSet.body.payload =
      Except.ok ⟨3, 1, 100, [1, 2], [9, 9]⟩ ∧
    envBase.storagePut ctx0
      (setKey (HexToAddress msgSet.body.sender) ⟨3, 1, 100, [1, 2], [9, 9]⟩)
      (setRecord ⟨3, 1, 100, [1, 2], [9, 9]⟩) [9, 9] = Except.ok () ∧
    (HandleGatewayMessage h0 envBase ctx0 "gw" msgSet =
      Effect.logDebug "handling gateway request" ::
      Effect.storagePut (setKey (HexToAddress msgSet.body.sender) ⟨3, 1, 100, [1, 2], [9, 9]⟩)
        (setRecord ⟨3, 1, 100, [1, 2], [9, 9]⟩) [9, 9] ::
      sendAndLog h0 envBase ctx0 "gw" msgSet.body
        (ResponsePayload.set { success := true, errorMessage := "" }) ∧
    (HandleGatewayMessage h0 envBase ctx0 "gw" msgSet).filter isStoragePut =
      [Effect.storagePut (setKey (HexToAddress msgSet.body.sender) ⟨3, 1, 100, [1, 2], [9, 9]⟩)
        (setRecord ⟨3, 1, 100, [1, 2], [9, 9]⟩) [9, 9]] ∧
    setKey (HexToAddress msgSet.body.sender) ⟨3, 1, 100, [1, 2], [9, 9]⟩ =
      { address := HexToAddress msgSet.body.sender, slotId := 3, version := 1 } ∧
    setRecord ⟨3, 1, 100, [1, 2], [9, 9]⟩ = { expiration := 100, payload := [1, 2] }) :=
  ⟨rfl, rfl, rfl, rfl,
   C2_secrets_set_writes_once_and_answers_success h0 envBase ctx0 "gw" msgSet
     ⟨3, 1, 100, [1, 2], [9, 9]⟩ rfl rfl rfl rfl⟩

/-- The environment with a failing request-payload decode. -/
def envBadDecode : Env :=
  { envBase with unmarshalSetRequest := fun _ => Except.error "invalid character" }

/-- C3 counterexample: at a concrete undecodable secrets_set payload
the handler response is success false with error message
"Bad request to set secret: invalid character", which does not have the
form "bad request: ..." claimed by the spec (neither the case nor the
wording of the prefix matches the code). -/
theorem C3_counterexample :
    (handleSecretsSet h0 envBadDecode ctx0 "gw" msgSet.body
        (HexToAddress msgSet.body.sender)).filter isMarshal =
      [Effect.marshal (ResponsePayload.set
        { success := false,
          errorMessage := "Bad request to set secret: invalid character" })] ∧
    ("bad request: ".data.isPrefixOf
        "Bad request to set secret: invalid character".data) = false := by
  constructor
  · rfl
  · decide

/-- C3 (amended): for every secrets_set request whose payload fails to
decode, the handler sends a response with success false and a non-empty
error message of the form "Bad request to set secret: ..." (the code
actual prefix, in place of the claimed "bad request: ..."), and
performs no storage operation at all. -/
theorem C3_bad_payload_signed_error_no_write
    (h : functionsConnectorHandler) (env : Env) (ctx : Ctx)
    (gatewayId : String) (body : MessageBody) (fromAddr : EthAddress) (e : String)
    (hU : env.unmarshalSetRequest body.payload = Except.error e) :
    handleSecretsSet h env ctx gatewayId body fromAddr =
      sendAndLog h env ctx gatewayId body
        (ResponsePayload.set
          { success := false, errorMessage := "Bad request to set secret: " ++ e }) ∧
    (∃ rest, "Bad request to set secret: " ++ e = "Bad request to set secret: " ++ rest) ∧
    "Bad request to set secret: " ++ e ≠ "" ∧
    (handleSecretsSet h env ctx gatewayId body fromAddr).filter isStorageEffect = [] := by
  have hT : handleSecretsSet h env ctx gatewayId body fromAddr =
      sendAndLog h env ctx gatewayId body
        (ResponsePayload.set
          { success := false, errorMessage := "Bad request to set secret: " ++ e }) := by
    unfold handleSecretsSet
    rw [hU]
  refine ⟨hT, ⟨e, rfl⟩, ?_, ?_⟩
  · intro hc
    have h2 : ("Bad request to set secret: " ++ e).data = "".data :=
      congrArg String.data hc
    have h3 : "Bad request to set secret: ".data ++ e.data = [] := h2
    simp at h3
  · rw [hT]
    exact sendAndLog_no_storage h env ctx gatewayId body _

/-- Witness for C3 amended theorem at a concrete undecodable payload. -/
theorem C3_witness :
    envBadDecode.unmarshalSetRequest msgSet.body.payload =
      Except.error "invalid character" ∧
    (handleSecretsSet h0 envBadDecode ctx0 "gw" msgSet.body
        (HexToAddress msgSet.body.sender) =
      sendAndLog h0 envBadDecode ctx0 "gw" msgSet.body
        (ResponsePayload.set
          { success := false,
            errorMessage := "Bad request to set secret: " ++ "invalid character" }) ∧
    (∃ rest, "Bad request to set secret: " ++ "invalid character" =
      "Bad request to set secret: " ++ rest) ∧
    "Bad request to set secret: " ++ "invalid character" ≠ "" ∧
    (handleSecretsSet h0 envBadDecode ctx0 "gw" msgSet.body
        (HexToAddress msgSet.body.sender)).filter isStorageEffect = []) :=
  ⟨rfl, C3_bad_payload_signed_error_no_write h0 envBadDecode ctx0 "gw" msgSet.body
    (HexToAddress msgSet.body.sender) "invalid character" rfl⟩

theorem sendAndLog_env_congr (h : functionsConnectorHandler) (env env2 : Env)
    (ctx : Ctx) (gatewayId : String) (requestBody : MessageBody)
    (hm : env2.marshalResponse = env.marshalResponse)
    (hs : env2.signOk = env.signOk)
    (hg : env2.sendToGateway = env.sendToGateway) :
    sendAndLog h env2 ctx gatewayId requestBody = sendAndLog h env ctx gatewayId requestBody := by
  funext p
  unfold sendAndLog sendResponse messageSign
  rw [hm, hs, hg]

/-- C4: for every secrets_list request whose storage enumeration
succeeds, the response is success true with rows that project each
snapshot row to exactly its slot id, version and expiration, in the
backend order; and the response never depends on the row payloads
bytes — two snapshots with the same projections produce identical
handler traces, so payload bytes are never present in the response. -/
theorem C4_secrets_list_metadata_only (h : functionsConnectorHandler)
    (env : Env) (ctx : Ctx) (gatewayId : String) (body : MessageBody)
    (fromAddr : EthAddress) (snapshot : List SnapshotRow)
    (hL : env.storageList ctx fromAddr = Except.ok snapshot) :
    handleSecretsList h env ctx gatewayId body fromAddr =
      Effect.storageList fromAddr ::
        sendAndLog h env ctx gatewayId body
          (ResponsePayload.list
            { success := true, errorMessage := "",
              rows := snapshot.map rowProjection }) ∧
    (∀ row, rowProjection row =
      { slotId := row.slotId, version := row.version, expiration := row.expiration }) ∧
    (∀ (env2 : Env) (snapshot2 : List SnapshotRow),
      env2.marshalResponse = env.marshalResponse →
      env2.signOk = env.signOk →
      env2.sendToGateway = env.sendToGateway →
      env2.storageList ctx fromAddr = Except.ok snapshot2 →
      snapshot2.map rowProjection = snapshot.map rowProjection →
      handleSecretsList h env2 ctx gatewayId body fromAddr =
        handleSecretsList h env ctx gatewayId body fromAddr) := by
  have hT : handleSecretsList h env ctx gatewayId body fromAddr =
      Effect.storageList fromAddr ::
        sendAndLog h env ctx gatewayId body
          (ResponsePayload.list
            { success := true, errorMessage := "",
              rows := snapshot.map rowProjection }) := by
    unfold handleSecretsList
    rw [hL]
  refine ⟨hT, fun row => rfl, ?_⟩
  intro env2 snapshot2 hm hs hg hL2 hproj
  have hT2 : handleSecretsList h env2 ctx gatewayId body fromAddr =
      Effect.storageList fromAddr ::
        sendAndLog h env2 ctx gatewayId body
          (ResponsePayload.list
            { success := true, errorMessage := "",
              rows := snapshot2.map rowProjection }) := by
    unfold handleSecretsList
    rw [hL2]
  rw [hT, hT2, hproj, sendAndLog_env_congr h env env2 ctx gatewayId body hm hs hg]

/-- Witness for C4: the spec concrete example — two stored rows with
distinct payloads are answered by success true and exactly their
metadata projections. -/
theorem C4_witness :
    envBase.storageList ctx0 (HexToAddress msgList.body.sender) =
      Except.ok [⟨1, 2, 100, [5, 6]⟩, ⟨2, 1, 200, [7]⟩] ∧
    handleSecretsList h0 envBase ctx0 "gw" msgList.body (HexToAddress msgList.body.sender) =
      Effect.storageList (HexToAddress msgList.body.sender) ::
        sendAndLog h0 envBase ctx0 "gw" msgList.body
          (ResponsePayload.list
            { success := true, errorMessage := "",
              rows := [⟨1, 2, 100⟩, ⟨2, 1, 200⟩] }) :=
  ⟨rfl, by
    have hfst := (C4_secrets_list_metadata_only h0 envBase ctx0 "gw" msgList.body
      (HexToAddress msgList.body.sender) [⟨1, 2, 100, [5, 6]⟩, ⟨2, 1, 200, [7]⟩] rfl).1
    simpa [rowProjection] using hfst⟩

theorem sendAndLog_send_envelope (h : functionsConnectorHandler) (env : Env)
    (ctx : Ctx) (gatewayId : String) (requestBody : MessageBody)
    (payload : ResponsePayload) (g2 : String) (m2 : Message)
    (hmem : Effect.sendToGateway g2 m2 ∈ sendAndLog h env ctx gatewayId requestBody payload) :
    g2 = gatewayId ∧ m2.body.messageId = requestBody.messageId ∧
    m2.body.donId = requestBody.donId ∧ m2.body.method = requestBody.method ∧
    m2.body.sender = h.nodeAddress ∧
    verifySignature (publicKeyOf h.signerKey) m2.body m2.signature = true := by
  obtain ⟨h1, h2, h3, h4, h5, h6⟩ :=
    sendAndLog_send_shape h env ctx gatewayId requestBody payload g2 m2 hmem
  exact ⟨h1, h2, h3, h4, h5, by simp [verifySignature, publicKeyOf, h6]⟩

/-- C5: every outbound response message submitted to the transport
echoes the inbound message_id and don_id, carries the request
method, has sender equal to the node configured address, and its
envelope signature—computed with the node private key—verifies
against the node public key. -/
theorem C5_outbound_envelope_correct (h : functionsConnectorHandler)
    (env : Env) (ctx : Ctx) (gatewayId : String) (msg : Message)
    (g2 : String) (m2 : Message)
    (hmem : Effect.sendToGateway g2 m2 ∈ HandleGatewayMessage h env ctx gatewayId msg) :
    g2 = gatewayId ∧ m2.body.messageId = msg.body.messageId ∧
    m2.body.donId = msg.body.donId ∧ m2.body.method = msg.body.method ∧
    m2.body.sender = h.nodeAddress ∧
    verifySignature (publicKeyOf h.signerKey) m2.body m2.signature = true := by
  unfold HandleGatewayMessage at hmem
  split at hmem
  · simp only [List.mem_cons] at hmem
    rcases hmem with hmem | hmem
    · simp at hmem
    · split at hmem
      · unfold handleSecretsList at hmem
        split at hmem <;>
        · simp only [List.mem_cons] at hmem
          rcases hmem with hmem | hmem
          · simp at hmem
          · exact sendAndLog_send_envelope h env ctx gatewayId msg.body _ g2 m2 hmem
      · split at hmem
        · unfold handleSecretsSet at hmem
          split at hmem
          · split at hmem <;>
            · simp only [List.mem_cons] at hmem
              rcases hmem with hmem | hmem
              · simp at hmem
              · exact sendAndLog_send_envelope h env ctx gatewayId msg.body _ g2 m2 hmem
          · exact sendAndLog_send_envelope h env ctx gatewayId msg.body _ g2 m2 hmem
        · simp at hmem
  · simp at hmem

/-- Witness for C5: the concrete successful secrets_list run submits
the concrete outbound message, which echoes the request ids, carries
the node address as sender and verifies against its public key. -/
theorem C5_witness :
    "gw" = "gw" ∧
    (mkOutbound h0 msgList.body "marshalled").body.messageId = msgList.body.messageId ∧
    (mkOutbound h0 msgList.body "marshalled").body.donId = msgList.body.donId ∧
    (mkOutbound h0 msgList.body "marshalled").body.method = msgList.body.method ∧
    (mkOutbound h0 msgList.body "marshalled").body.sender = h0.nodeAddress ∧
    verifySignature (publicKeyOf h0.signerKey) (mkOutbound h0 msgList.body "marshalled").body
      (mkOutbound h0 msgList.body "marshalled").signature = true :=
  C5_outbound_envelope_correct h0 envBase ctx0 "gw" msgList "gw"
    (mkOutbound h0 msgList.body "marshalled") (by decide)

/-- An environment whose storage and transport honor context
cancellation by returning a cancellation error. -/
def envCancelAware : Env :=
  { envBase with
    storageList := fun ctx _ =>
      if ctx.cancelled then Except.error "context canceled" else Except.ok []
    storagePut := fun ctx _ _ _ =>
      if ctx.cancelled then Except.error "context canceled" else Except.ok ()
    sendToGateway := fun ctx _ _ =>
      if ctx.cancelled then Except.error "context canceled" else Except.ok () }

/-- The cancelled request context. -/
def ctxCancelled : Ctx := { cancelled := true }

/-- C7 counterexample: with the context cancelled during the storage
call (the storage call returns the cancellation error), the handler
does not abandon the response: it marshals an error response, signs it
and submits it to the transport — the trace contains a signed
`sendToGateway` submission, contradicting the claim that a cancelled
request never results in a signed response being submitted. -/
theorem C7_counterexample :
    handleSecretsList h0 envCancelAware ctxCancelled "gw" msgList.body
        (HexToAddress msgList.body.sender) =
      [Effect.storageList (HexToAddress msgList.body.sender),
       Effect.marshal (ResponsePayload.list
         { success := false,
           errorMessage := "Failed to list secrets: context canceled", rows := [] }),
       Effect.sendToGateway "gw" (mkOutbound h0 msgList.body "marshalled"),
       Effect.logError "failed to send response to gateway"] ∧
    (mkOutbound h0 msgList.body "marshalled").signature =
      SignData h0.signerKey (mkOutbound h0 msgList.body "marshalled").body :=
  ⟨rfl, rfl⟩

/-- C7 (amended): when the context is cancelled while the storage call
is in progress, the cancellation surfaces to the handler as an error
returned by the storage call, and the handler does not abandon the
response: for both secrets_list and secrets_set it builds, signs and
submits a success false response wrapping the storage error, with the
cancelled context passed to the transport. -/
theorem C7_cancelled_storage_error_still_answered
    (h : functionsConnectorHandler) (env : Env) (ctx : Ctx)
    (gatewayId : String) (body : MessageBody) (fromAddr : EthAddress) (e : String) :
    (env.storageList ctx fromAddr = Except.error e →
      handleSecretsList h env ctx gatewayId body fromAddr =
        Effect.storageList fromAddr ::
          sendAndLog h env ctx gatewayId body
            (ResponsePayload.list
              { success := false,
                errorMessage := "Failed to list secrets: " ++ e, rows := [] })) ∧
    (∀ req : SetRequest, env.unmarshalSetRequest body.payload = Except.ok req →
      env.storagePut ctx (setKey fromAddr req) (setRecord req) req.signature =
        Except.error e →
      handleSecretsSet h env ctx gatewayId body fromAddr =
        Effect.storagePut (setKey fromAddr req) (setRecord req) req.signature ::
          sendAndLog h env ctx gatewayId body
            (ResponsePayload.set
              { success := false, errorMessage := "Failed to set secret: " ++ e })) := by
  constructor
  · intro hL
    unfold handleSecretsList
    rw [hL]
  · intro req hU hP
    simp [handleSecretsSet, hU, hP]

/-- Witness for C7 amended theorem: the concrete cancelled run for
both methods. -/
theorem C7_witness :
    envCancelAware.storageList ctxCancelled (HexToAddress msgList.body.sender) =
      Except.error "context canceled" ∧
    (handleSecretsList h0 envCancelAware ctxCancelled "gw" msgList.body
        (HexToAddress msgList.body.sender) =
      Effect.storageList (HexToAddress msgList.body.sender) ::
        sendAndLog h0 envCancelAware ctxCancelled "gw" msgList.body
          (ResponsePayload.list
            { success := false,
              errorMessage := "Failed to list secrets: " ++ "context canceled",
              rows := [] })) ∧
    (handleSecretsSet h0 envCancelAware ctxCancelled "gw" msgSet.body
        (HexToAddress msgSet.body.sender) =
      Effect.storagePut
          (setKey (HexToAddress msgSet.body.sender) ⟨3, 1, 100, [1, 2], [9, 9]⟩)
          (setRecord ⟨3, 1, 100, [1, 2], [9, 9]⟩) [9, 9] ::
        sendAndLog h0 envCancelAware ctxCancelled "gw" msgSet.body
          (ResponsePayload.set
            { success := false,
              errorMessage := "Failed to set secret: " ++ "context canceled" })) :=
  ⟨rfl,
   (C7_cancelled_storage_error_still_answered h0 envCancelAware ctxCancelled "gw"
      msgList.body (HexToAddress msgList.body.sender) "context canceled").1 rfl,
   (C7_cancelled_storage_error_still_answered h0 envCancelAware ctxCancelled "gw"
      msgSet.body (HexToAddress msgSet.body.sender) "context canceled").2
      ⟨3, 1, 100, [1, 2], [9, 9]⟩ rfl rfl⟩

/-- C9: if marshalling the response payload or signing the envelope
fails, nothing is submitted to the transport and the failure is only
logged; if the transport submission fails, the error is logged and the
send is not retried — exactly one submission appears in the trace. -/
theorem C9_send_failures_logged_not_retried (h : functionsConnectorHandler)
    (env : Env) (ctx : Ctx) (gatewayId : String) (requestBody : MessageBody)
    (payload : ResponsePayload) :
    (∀ e, env.marshalResponse payload = Except.error e →
      sendAndLog h env ctx gatewayId requestBody payload =
        [Effect.marshal payload,
         Effect.logError "failed to send response to gateway"]) ∧
    (∀ pj, env.marshalResponse payload = Except.ok pj → env.signOk = false →
      sendAndLog h env ctx gatewayId requestBody payload =
        [Effect.marshal payload,
         Effect.logError "failed to send response to gateway"]) ∧
    (∀ pj e, env.marshalResponse payload = Except.ok pj → env.signOk = true →
      env.sendToGateway ctx gatewayId (mkOutbound h requestBody pj) = Except.error e →
      sendAndLog h env ctx gatewayId requestBody payload =
        [Effect.marshal payload,
         Effect.sendToGateway gatewayId (mkOutbound h requestBody pj),
         Effect.logError "failed to send response to gateway"]) := by
  refine ⟨?_, ?_, ?_⟩
  · intro e hM
    simp [sendAndLog, sendResponse, hM]
  · intro pj hM hs
    simp [sendAndLog, sendResponse, messageSign, hM, hs]
  · intro pj e hM hs hG
    simp only [mkOutbound] at hG
    simp [sendAndLog, sendResponse, messageSign, hM, hs, hG, mkOutbound]

/-- The environment whose response marshalling fails. -/
def envMarshalFail : Env :=
  { envBase with marshalResponse := fun _ => Except.error "marshal failed" }

/-- The environment whose envelope signing fails. -/
def envSignFail : Env := { envBase with signOk := false }

/-- The environment whose transport submission fails. -/
def envSendFail : Env :=
  { envBase with sendToGateway := fun _ _ _ => Except.error "send failed" }

/-- Witness for C9: the three concrete failing runs. -/
theorem C9_witness :
    (sendAndLog h0 envMarshalFail ctx0 "gw" msgList.body
        (ResponsePayload.set { success := true, errorMessage := "" }) =
      [Effect.marshal (ResponsePayload.set { success := true, errorMessage := "" }),
       Effect.logError "failed to send response to gateway"]) ∧
    (sendAndLog h0 envSignFail ctx0 "gw" msgList.body
        (ResponsePayload.set { success := true, errorMessage := "" }) =
      [Effect.marshal (ResponsePayload.set { success := true, errorMessage := "" }),
       Effect.logError "failed to send response to gateway"]) ∧
    (sendAndLog h0 envSendFail ctx0 "gw" msgList.body
        (ResponsePayload.set { success := true, errorMessage := "" }) =
      [Effect.marshal (ResponsePayload.set { success := true, errorMessage := "" }),
       Effect.sendToGateway "gw" (mkOutbound h0 msgList.body "marshalled"),
       Effect.logError "failed to send response to gateway"]) :=
  ⟨(C9_send_failures_logged_not_retried h0 envMarshalFail ctx0 "gw" msgList.body
      (ResponsePayload.set { success := true, errorMessage := "" })).1
      "marshal failed" rfl,
   (C9_send_failures_logged_not_retried h0 envSignFail ctx0 "gw" msgList.body
      (ResponsePayload.set { success := true, errorMessage := "" })).2.1
      "marshalled" rfl rfl,
   (C9_send_failures_logged_not_retried h0 envSendFail ctx0 "gw" msgList.body
      (ResponsePayload.set { success := true, errorMessage := "" })).2.2
      "marshalled" "send failed" rfl rfl rfl⟩

theorem BytesToAddress_length (b : List Nat) : (BytesToAddress b).length = 20 := by
  unfold BytesToAddress
  split <;> simp <;> omega

theorem sendAndLog_body_congr (h : functionsConnectorHandler) (env : Env)
    (ctx : Ctx) (gatewayId : String) (b2 b : MessageBody)
    (h1 : b2.messageId = b.messageId) (h2 : b2.donId = b.donId)
    (h3 : b2.method = b.method) :
    sendAndLog h env ctx gatewayId b2 = sendAndLog h env ctx gatewayId b := by
  funext p
  unfold sendAndLog sendResponse outboundBody
  rw [h1, h2, h3]

theorem handleSecretsList_body_congr (h : functionsConnectorHandler) (env : Env)
    (ctx : Ctx) (gatewayId : String) (b2 b : MessageBody) (fromAddr : EthAddress)
    (h1 : b2.messageId = b.messageId) (h2 : b2.donId = b.donId)
    (h3 : b2.method = b.method) :
    handleSecretsList h env ctx gatewayId b2 fromAddr =
      handleSecretsList h env ctx gatewayId b fromAddr := by
  unfold handleSecretsList
  rw [sendAndLog_body_congr h env ctx gatewayId b2 b h1 h2 h3]

theorem handleSecretsSet_body_congr (h : functionsConnectorHandler) (env : Env)
    (ctx : Ctx) (gatewayId : String) (b2 b : MessageBody) (fromAddr : EthAddress)
    (h1 : b2.messageId = b.messageId) (h2 : b2.donId = b.donId)
    (h3 : b2.method = b.method) (h4 : b2.payload = b.payload) :
    handleSecretsSet h env ctx gatewayId b2 fromAddr =
      handleSecretsSet h env ctx gatewayId b fromAddr := by
  unfold handleSecretsSet
  rw [h4, sendAndLog_body_congr h env ctx gatewayId b2 b h1 h2 h3]

/-- C10: sender conversion is total and deterministic — every sender
string, valid hex or not, yields a fixed-width 20-byte address; the
handler behaviour depends on the sender string only through that
address, so the admission decision and the storage owner key are
computed from it; and an admitted sender is never rejected for a
malformed sender string: processing always proceeds to method
dispatch. -/
theorem C10_sender_conversion_total (s : String) :
    (HexToAddress s).length = 20 ∧
    (∀ (h : functionsConnectorHandler) (env : Env) (ctx : Ctx) (gatewayId : String)
      (b : MessageBody) (sig : Bytes) (s2 : String),
      HexToAddress b.sender = HexToAddress s2 →
      HandleGatewayMessage h env ctx gatewayId ⟨b, sig⟩ =
        HandleGatewayMessage h env ctx gatewayId
          ⟨⟨b.messageId, b.donId, b.method, s2, b.payload⟩, sig⟩) ∧
    (∀ (h : functionsConnectorHandler) (env : Env) (ctx : Ctx) (gatewayId : String)
      (b : MessageBody) (sig : Bytes),
      b.sender = s → env.allow (HexToAddress s) = true →
      HandleGatewayMessage h env ctx gatewayId ⟨b, sig⟩ =
        Effect.logDebug "handling gateway request" ::
          (if b.method = methodSecretsList then
            handleSecretsList h env ctx gatewayId b (HexToAddress s)
          else if b.method = methodSecretsSet then
            handleSecretsSet h env ctx gatewayId b (HexToAddress s)
          else [Effect.logError "unsupported method"])) := by
  refine ⟨BytesToAddress_length (FromHex s.data), ?_, ?_⟩
  · intro h env ctx gatewayId b sig s2 hq
    unfold HandleGatewayMessage
    simp only [hq]
    rw [handleSecretsList_body_congr h env ctx gatewayId
        ⟨b.messageId, b.donId, b.method, s2, b.payload⟩ b (HexToAddress s2) rfl rfl rfl,
      handleSecretsSet_body_congr h env ctx gatewayId
        ⟨b.messageId, b.donId, b.method, s2, b.payload⟩ b (HexToAddress s2) rfl rfl rfl rfl]
  · intro h env ctx gatewayId b sig hbs hA
    unfold HandleGatewayMessage
    simp only [hbs, hA]
    simp

/-- Witness for C10 at the malformed sender string "zz-not-hex!": it
still yields a 20-byte address, equals the address of the equally
degenerate sender "0x", so both messages are processed identically,
and with the allowlist admitting it the handler proceeds to dispatch. -/
theorem C10_witness :
    (HexToAddress "zz-not-hex!").length = 20 ∧
    HandleGatewayMessage h0 envBase ctx0 "gw"
        ⟨⟨"m4", "d4", "secrets_list", "zz-not-hex!", ""⟩, []⟩ =
      HandleGatewayMessage h0 envBase ctx0 "gw"
        ⟨⟨"m4", "d4", "secrets_list", "0x", ""⟩, []⟩ ∧
    HandleGatewayMessage h0 envBase ctx0 "gw"
        ⟨⟨"m4", "d4", "secrets_list", "zz-not-hex!", ""⟩, []⟩ =
      Effect.logDebug "handling gateway request" ::
        (if ("secrets_list" : String) = methodSecretsList then
          handleSecretsList h0 envBase ctx0 "gw"
            ⟨"m4", "d4", "secrets_list", "zz-not-hex!", ""⟩ (HexToAddress "zz-not-hex!")
        else if ("secrets_list" : String) = methodSecretsSet then
          handleSecretsSet h0 envBase ctx0 "gw"
            ⟨"m4", "d4", "secrets_list", "zz-not-hex!", ""⟩ (HexToAddress "zz-not-hex!")
        else [Effect.logError "unsupported method"]) :=
  ⟨(C10_sender_conversion_total "zz-not-hex!").1,
   (C10_sender_conversion_total "zz-not-hex!").2.1 h0 envBase ctx0 "gw"
     ⟨"m4", "d4", "secrets_list", "zz-not-hex!", ""⟩ [] "0x" (by decide),
   (C10_sender_conversion_total "zz-not-hex!").2.2 h0 envBase ctx0 "gw"
     ⟨"m4", "d4", "secrets_list", "zz-not-hex!", ""⟩ [] rfl rfl⟩

/-- Modelled from the spec: the guarded one-shot lifecycle state of
`utils.StartStopOnce` (not under src/): never-started → started →
stopped, with failed transitions recorded so no transition can run
twice. -/
inductive StartStopState
  | unstarted
  | started
  | startFailed
  | stopped
  | stopFailed
deriving DecidableEq, Repr

/-- Results of the allowlist collaborator own Start and Close calls. -/
structure LifecycleEnv where
  allowlistStart : Except String Unit
  allowlistClose : Except String Unit

/-- An invocation of the allowlist collaborator lifecycle. -/
inductive LifeEffect
  | allowlistStart
  | allowlistClose
deriving DecidableEq, Repr

/-- Translation of the handler `Start`, with `utils.StartOnce`
modelled from the spec: the body (which calls `allowlist.Start`) runs
only from the never-started state; from any other state `Start` is an
error that does not invoke the allowlist. -/
def Start (lenv : LifecycleEnv) (s : StartStopState) :
    StartStopState × List LifeEffect × Except String Unit :=
  match s with
  | StartStopState.unstarted =>
    match lenv.allowlistStart with
    | Except.ok _ =>
      (StartStopState.started, [LifeEffect.allowlistStart], Except.ok ())
    | Except.error e =>
      (StartStopState.startFailed, [LifeEffect.allowlistStart], Except.error e)
  | s => (s, [], Except.error "already started once")

/-- Translation of the handler `Close`, with `utils.StopOnce`
modelled from the spec: the body (which calls `allowlist.Close`) runs
only from the started state; a close before start, after a failed
start or a second close is an error that does not invoke the
allowlist. -/
def Close (lenv : LifecycleEnv) (s : StartStopState) :
    StartStopState × List LifeEffect × Except String Unit :=
  match s with
  | StartStopState.started =>
    match lenv.allowlistClose with
    | Except.ok _ =>
      (StartStopState.stopped, [LifeEffect.allowlistClose], Except.ok ())
    | Except.error e =>
      (StartStopState.stopFailed, [LifeEffect.allowlistClose], Except.error e)
  | s => (s, [], Except.error "has not been started")

/-- A call made against the handler lifecycle. -/
inductive LifeCall
  | start
  | close
deriving DecidableEq, Repr

/-- Run a sequence of Start/Close calls from a state, collecting the
allowlist invocations. -/
def runLifecycle (lenv : LifecycleEnv) : List LifeCall → StartStopState →
    StartStopState × List LifeEffect
  | [], s => (s, [])
  | LifeCall.start :: rest, s =>
    ((runLifecycle lenv rest (Start lenv s).1).1,
      (Start lenv s).2.1 ++ (runLifecycle lenv rest (Start lenv s).1).2)
  | LifeCall.close :: rest, s =>
    ((runLifecycle lenv rest (Close lenv s).1).1,
      (Close lenv s).2.1 ++ (runLifecycle lenv rest (Close lenv s).1).2)

/-- How many allowlist Start invocations can still happen from a state. -/
def startBudget : StartStopState → Nat
  | StartStopState.unstarted => 1
  | _ => 0

/-- How many allowlist Close invocations can still happen from a state. -/
def closeBudget : StartStopState → Nat
  | StartStopState.unstarted => 1
  | StartStopState.started => 1
  | _ => 0

theorem Start_step (lenv : LifecycleEnv) (s : StartStopState) :
    (Start lenv s).2.1.count LifeEffect.allowlistStart +
      startBudget (Start lenv s).1 ≤ startBudget s ∧
    (Start lenv s).2.1.count LifeEffect.allowlistClose +
      closeBudget (Start lenv s).1 ≤ closeBudget s := by
  cases s <;> rcases hS : lenv.allowlistStart with e | u <;>
    simp [Start, hS, startBudget, closeBudget, List.count_cons, List.count_nil]

theorem Close_step (lenv : LifecycleEnv) (s : StartStopState) :
    (Close lenv s).2.1.count LifeEffect.allowlistStart +
      startBudget (Close lenv s).1 ≤ startBudget s ∧
    (Close lenv s).2.1.count LifeEffect.allowlistClose +
      closeBudget (Close lenv s).1 ≤ closeBudget s := by
  cases s <;> rcases hC : lenv.allowlistClose with e | u <;>
    simp [Close, hC, startBudget, closeBudget, List.count_cons, List.count_nil]

theorem runLifecycle_counts (lenv : LifecycleEnv) (calls : List LifeCall) :
    ∀ s : StartStopState,
      (runLifecycle lenv calls s).2.count LifeEffect.allowlistStart ≤ startBudget s ∧
      (runLifecycle lenv calls s).2.count LifeEffect.allowlistClose ≤ closeBudget s := by
  induction calls with
  | nil => intro s; simp [runLifecycle]
  | cons c rest ih =>
    intro s
    cases c
    · obtain ⟨i1, i2⟩ := ih (Start lenv s).1
      obtain ⟨s1, s2⟩ := Start_step lenv s
      constructor <;> simp only [runLifecycle, List.count_append] <;> omega
    · obtain ⟨i1, i2⟩ := ih (Close lenv s).1
      obtain ⟨s1, s2⟩ := Close_step lenv s
      constructor <;> simp only [runLifecycle, List.count_append] <;> omega

/-- C8: the lifecycle is the guarded one-shot state machine stopped →
started → stopped: the first Start invokes the allowlist Start
exactly once, the first Close after a successful Start invokes the
allowlist Close exactly once, a second Start or a Close before Start
is a well-defined error that does not invoke the allowlist, and over
any sequence of Start/Close calls from the initial state each
allowlist transition runs at most once. -/
theorem C8_lifecycle_one_shot (lenv : LifecycleEnv) :
    (Start lenv StartStopState.unstarted).2.1 = [LifeEffect.allowlistStart] ∧
    (∀ s, s ≠ StartStopState.unstarted →
      Start lenv s = (s, [], Except.error "already started once")) ∧
    (Close lenv StartStopState.started).2.1 = [LifeEffect.allowlistClose] ∧
    (∀ s, s ≠ StartStopState.started →
      Close lenv s = (s, [], Except.error "has not been started")) ∧
    (∀ calls : List LifeCall,
      (runLifecycle lenv calls StartStopState.unstarted).2.count
        LifeEffect.allowlistStart ≤ 1 ∧
      (runLifecycle lenv calls StartStopState.unstarted).2.count
        LifeEffect.allowlistClose ≤ 1) := by
  refine ⟨?_, ?_, ?_, ?_, ?_⟩
  · rcases hS : lenv.allowlistStart with e | u <;> simp [Start, hS]
  · intro s hs
    cases s
    · exact absurd rfl hs
    · rfl
    · rfl
    · rfl
    · rfl
  · rcases hC : lenv.allowlistClose with e | u <;> simp [Close, hC]
  · intro s hs
    cases s
    · rfl
    · exact absurd rfl hs
    · rfl
    · rfl
    · rfl
  · intro calls
    exact runLifecycle_counts lenv calls StartStopState.unstarted

/-- A concrete lifecycle environment whose allowlist calls succeed. -/
def lenv0 : LifecycleEnv :=
  { allowlistStart := Except.ok (), allowlistClose := Except.ok () }

/-- Witness for C8: the concrete double start/close sequence invokes
each allowlist transition exactly once, and the out-of-order calls are
errors. -/
theorem C8_witness :
    (Start lenv0 StartStopState.unstarted).2.1 = [LifeEffect.allowlistStart] ∧
    Start lenv0 StartStopState.started =
      (StartStopState.started, [], Except.error "already started once") ∧
    (Close lenv0 StartStopState.started).2.1 = [LifeEffect.allowlistClose] ∧
    Close lenv0 StartStopState.unstarted =
      (StartStopState.unstarted, [], Except.error "has not been started") ∧
    (runLifecycle lenv0
        [LifeCall.start, LifeCall.start, LifeCall.close, LifeCall.close]
        StartStopState.unstarted).2.count LifeEffect.allowlistStart ≤ 1 ∧
    (runLifecycle lenv0
        [LifeCall.start, LifeCall.start, LifeCall.close, LifeCall.close]
        StartStopState.unstarted).2.count LifeEffect.allowlistClose ≤ 1 :=
  ⟨(C8_lifecycle_one_shot lenv0).1,
   (C8_lifecycle_one_shot lenv0).2.1 StartStopState.started (by decide),
   (C8_lifecycle_one_shot lenv0).2.2.1,
   (C8_lifecycle_one_shot lenv0).2.2.2.1 StartStopState.unstarted (by decide),
   ((C8_lifecycle_one_shot lenv0).2.2.2.2
     [LifeCall.start, LifeCall.start, LifeCall.close, LifeCall.close]).1,
   ((C8_lifecycle_one_shot lenv0).2.2.2.2
     [LifeCall.start, LifeCall.start, LifeCall.close, LifeCall.close]).2⟩
